import Mathlib

/-!
Verification of the round-trip correlation and flight-identifier resolution
engine of a FastAPI webhook middleware.  The definitions below are a shallow
embedding of the Python sources:

  * `src/app/helpers.py`      — matcher, resolver, direction rule, extraction
  * `src/app/storage.py`      — pending-booking store (in-memory dict)
  * `src/app/transform.py`    — payload assembly (flight lists)
  * `src/app/integrations.py` — webhook handler / correlation coordinator
  * `src/app/config.py`       — TTL constant

Python dynamic values that matter behaviourally (int-vs-string fields,
truthiness, `str()` / `int()` coercions) are modelled by the `PyVal` sum type.
Webhook payloads are modelled at the shape the code reads them
(`Booking`, `Order`, `Availability`, `CField`); network collaborators
(`search_flights`, `send_to_makersuite_api`) are modelled as oracles passed to
the handler, mirroring their `{success, response}` result dictionaries.
Date-time parsing models CPython `datetime.fromisoformat` (pre-3.11 grammar,
which is what the source's explicit `-0400 -> -04:00` and `Z -> +00:00`
fix-ups presuppose).
-/

namespace RoundTrip

/-! ## Python-level primitives -/

/-- ASCII whitespace, as stripped by Python `str.strip()` (the source only ever
feeds ASCII field values). -/
def isSpaceC (c : Char) : Bool :=
  c == ' ' || c == '\t' || c == '\n' || c == '\r' || c == '\x0b' || c == '\x0c'

/-- `str.strip()` on a character list. -/
def pyStripChars (l : List Char) : List Char :=
  ((l.dropWhile isSpaceC).reverse.dropWhile isSpaceC).reverse

/-- Numeric value of a decimal digit list (most significant first). -/
def digitsToNat (l : List Char) : Nat :=
  l.foldl (fun a c => 10 * a + (c.toNat - '0'.toNat)) 0

/-- All-digit check used for Python `str.isdigit()` and for `int()` bodies
(nonempty, every char a decimal digit). -/
def parseDigitsAll? (l : List Char) : Option Nat :=
  if l ≠ [] ∧ l.all Char.isDigit then some (digitsToNat l) else none

/-- Python `int(s)` on a string: strip whitespace, optional sign, decimal
digits; `none` models the `ValueError` path. -/
def pyIntOfChars? (l : List Char) : Option Int :=
  match pyStripChars l with
  | '+' :: rest => (parseDigitsAll? rest).map Int.ofNat
  | '-' :: rest => (parseDigitsAll? rest).map (fun n => -(n : Int))
  | rest => (parseDigitsAll? rest).map Int.ofNat

/-- A Python value that is either an int or a str (the two shapes the webhook
and search-response fields take). -/
inductive PyVal where
  | vInt (n : Int)
  | vStr (s : String)
deriving DecidableEq

/-- Python truthiness of a `PyVal` (`0` and `""` are falsy). -/
def PyVal.truthy : PyVal → Bool
  | .vInt n => n != 0
  | .vStr s => s != ""

/-- Python `str()` of a `PyVal`. -/
def PyVal.pyStr : PyVal → String
  | .vInt n => toString n
  | .vStr s => s

/-- Python `int()` of a `PyVal`; `none` models `ValueError`. -/
def PyVal.pyInt? : PyVal → Option Int
  | .vInt n => some n
  | .vStr s => pyIntOfChars? s.data

/-- `needle` occurs at the start of `hay`. -/
def startsWithChars : List Char → List Char → Bool
  | [], _ => true
  | _ :: _, [] => false
  | a :: as, b :: bs => a == b && startsWithChars as bs

/-- Python `needle in hay` substring test. -/
def hasSub (needle : List Char) : List Char → Bool
  | [] => needle.isEmpty
  | c :: t => startsWithChars needle (c :: t) || hasSub needle t

/-- First maximal run of decimal digits in a string
(`re.findall(r'\d+', s)[0]` when it exists). -/
def firstDigitRun : List Char → Option (List Char)
  | [] => none
  | c :: rest =>
    if c.isDigit then some (c :: rest.takeWhile Char.isDigit)
    else firstDigitRun rest

/-- Maximal trailing run of decimal digits (`re.search(r'(\d+)$', s)`). -/
def trailingDigits (l : List Char) : List Char :=
  (l.reverse.takeWhile Char.isDigit).reverse

/-! ## ISO date-time parsing (CPython `datetime.fromisoformat`, pre-3.11) -/

/-- Read exactly two decimal digits. -/
def takeDigits2 : List Char → Option (Nat × List Char)
  | a :: b :: rest =>
    if a.isDigit && b.isDigit then
      some (10 * (a.toNat - '0'.toNat) + (b.toNat - '0'.toNat), rest)
    else none
  | _ => none

/-- Read exactly four decimal digits. -/
def takeDigits4 : List Char → Option (Nat × List Char)
  | a :: b :: c :: d :: rest =>
    if a.isDigit && b.isDigit && c.isDigit && d.isDigit then
      some (digitsToNat [a, b, c, d], rest)
    else none
  | _ => none

/-- Consume one expected character. -/
def expectChar (ch : Char) : List Char → Option (List Char)
  | c :: rest => if c == ch then some rest else none
  | [] => none

def isLeapYear (y : Nat) : Bool :=
  (y % 4 == 0 && y % 100 != 0) || y % 400 == 0

def daysInMonth (y m : Nat) : Nat :=
  if m = 2 then (if isLeapYear y then 29 else 28)
  else if m = 4 ∨ m = 6 ∨ m = 9 ∨ m = 11 then 30
  else 31

/-- Parse the mandatory `YYYY-MM-DD` prefix, with range validation. -/
def parseDatePart (l : List Char) : Option ((Nat × Nat × Nat) × List Char) := do
  let (y, r1) ← takeDigits4 l
  let r2 ← expectChar '-' r1
  let (m, r3) ← takeDigits2 r2
  let r4 ← expectChar '-' r3
  let (d, r5) ← takeDigits2 r4
  if 1 ≤ y ∧ 1 ≤ m ∧ m ≤ 12 ∧ 1 ≤ d ∧ d ≤ daysInMonth y m then
    some ((y, m, d), r5)
  else none

/-- Optional fractional-second part: `.` followed by exactly 3 or 6 digits. -/
def parseFrac : List Char → Option (List Char)
  | '.' :: rest =>
    let ds := rest.takeWhile Char.isDigit
    if ds.length = 3 ∨ ds.length = 6 then some (rest.drop ds.length) else none
  | l => some l

/-- `HH:MM[:SS[.fff[fff]]]`, with range validation; used both for the time of
day and for the numeric part of a timezone offset. -/
def parseTimeCore (l : List Char) : Option (List Char) := do
  let (hh, r1) ← takeDigits2 l
  let r2 ← expectChar ':' r1
  let (mm, r3) ← takeDigits2 r2
  if hh ≤ 23 ∧ mm ≤ 59 then
    match expectChar ':' r3 with
    | some r4 => do
      let (ss, r5) ← takeDigits2 r4
      if ss ≤ 59 then parseFrac r5 else none
    | none => some r3
  else none

/-- Timezone suffix `±HH:MM[:SS[.ffffff]]`. -/
def parseTzPart (l : List Char) : Option (List Char) :=
  match l with
  | c :: rest => if c == '+' || c == '-' then parseTimeCore rest else none
  | [] => none

/-- `datetime.fromisoformat` restricted to the calendar date it yields: the
date is taken verbatim from the `YYYY-MM-DD` prefix (no offset conversion,
matching `strftime("%Y-%m-%d")` on the parsed naive/aware value).  `none`
models the `ValueError` path. -/
def fromIsoChars (l : List Char) : Option (Nat × Nat × Nat) := do
  let (ymd, rest) ← parseDatePart l
  match rest with
  | [] => some ymd
  | _sep :: rest2 =>
    let r3 ← parseTimeCore rest2
    match r3 with
    | [] => some ymd
    | r3' =>
      match parseTzPart r3' with
      | some [] => some ymd
      | _ => none

/-- The source's timezone fix-up (`helpers.py` 226-234, 337-344, 364-371):
when the string is nonempty and does not end in `Z`, a trailing
`[+-]\d\d\d\d` offset gets a colon inserted (`-0400` becomes `-04:00`). -/
def fixTzChars (l : List Char) : List Char :=
  if l = [] ∨ l.getLast? = some 'Z' then l
  else
    match l.reverse with
    | m2 :: m1 :: h2 :: h1 :: sgn :: rest =>
      if (sgn == '+' || sgn == '-') && h1.isDigit && h2.isDigit
          && m1.isDigit && m2.isDigit then
        (m2 :: m1 :: ':' :: h2 :: h1 :: sgn :: rest).reverse
      else l
    | _ => l

/-- Python `s.replace('Z', '+00:00')` (every occurrence). -/
def replaceZ : List Char → List Char
  | [] => []
  | c :: rest =>
    if c = 'Z' then '+' :: '0' :: '0' :: ':' :: '0' :: '0' :: replaceZ rest
    else c :: replaceZ rest

/-- The full normalization-and-parse pipeline applied by the source to both
the target date and every candidate date
(fix `±HHMM`, substitute `Z`, `fromisoformat`, keep the calendar date). -/
def normParseDate (s : String) : Option (Nat × Nat × Nat) :=
  fromIsoChars (replaceZ (fixTzChars s.data))

/-- Zero-padded decimal rendering of width `w`. -/
def padDigits (w n : Nat) : List Char :=
  let ds := Nat.toDigits 10 n
  List.replicate (w - ds.length) '0' ++ ds

/-- `strftime("%Y-%m-%d")` on a parsed date. -/
def formatYMD : Nat × Nat × Nat → String
  | (y, m, d) => ⟨padDigits 4 y ++ '-' :: (padDigits 2 m ++ '-' :: padDigits 2 d)⟩

/-! ## Data model (shapes the code reads from the webhook payload) -/

/-- One entry of `custom_field_values` as the code reads it
(`name`, `value`, `display_value`). -/
structure CField where
  name : String
  value : String := ""
  display_value : String := ""
deriving DecidableEq

/-- `availability.item` as read by the code (`pk`, `name`). -/
structure Item where
  pk : Int
  name : String := ""
deriving DecidableEq

/-- `availability` as read by the code. -/
structure Availability where
  start_at : String := ""
  headline : String := ""
  item : Option Item := none
deriving DecidableEq

/-- `order` as read by the code. -/
structure Order where
  display_id : Option String := none
deriving DecidableEq

/-- A booking payload at the shape the code reads it. -/
structure Booking where
  order : Option Order := none
  custom_field_values : List CField := []
  availability : Option Availability := none
deriving DecidableEq

def Booking.startAt (b : Booking) : String :=
  (b.availability.map (·.start_at)).getD ""

def Booking.headlineStr (b : Booking) : String :=
  (b.availability.map (·.headline)).getD ""

def Booking.itemName (b : Booking) : String :=
  ((b.availability.bind (·.item)).map (·.name)).getD ""

/-- One entry of the flight-search response list, at the keys the code reads
(`FlightDate`, `FlightNumber`, and the identifier key chain). -/
structure Candidate where
  FlightDate : String := ""
  FlightNumber : Option PyVal := none
  FlightIdentifier : Option PyVal := none
  Identifier : Option PyVal := none
  Id : Option PyVal := none
deriving DecidableEq

/-- `str(flight.get("FlightNumber", ""))` (`helpers.py` 360). -/
def Candidate.numberStr (c : Candidate) : String :=
  match c.FlightNumber with
  | some v => v.pyStr
  | none => ""

/-- `flight.get("FlightIdentifier") or flight.get("Identifier") or
flight.get("Id")` followed by the `if flight_identifier:` truthiness test
(`helpers.py` 381-382): the first truthy value in key order, if any. -/
def Candidate.identVal (c : Candidate) : Option PyVal :=
  ([c.FlightIdentifier, c.Identifier, c.Id].filterMap id).find? (·.truthy)

/-! ## helpers.py — flight extraction and the matcher -/

/-- `is_round_trip` (`helpers.py` 12-16). -/
def is_round_trip (b : Booking) : Bool :=
  b.order.isSome && (b.order.bind (·.display_id)).isSome

/-- Correlation keys are `get_order_display_id`'s results; Python would use
`None` as a dict key, hence `Option String`. -/
abbrev Key := Option String

/-- `get_order_display_id` (`helpers.py` 19-26). -/
def get_order_display_id (b : Booking) : Key :=
  b.order.bind (·.display_id)

def flightNumberLit : List Char := "Flight Number".data

/-- The custom-field scan of `extract_flight_numbers` (`helpers.py` 37-51),
run over the deduplicated name-to-value dict; the `availability` fallback
follows in `extract_flight_numbers`. -/
def scanFieldFlights : List (String × String) → List Int
  | [] => []
  | (nm, v) :: rest =>
    if hasSub flightNumberLit nm.data then
      match firstDigitRun nm.data with
      | some run => Int.ofNat (digitsToNat run) :: scanFieldFlights rest
      | none =>
        if pyStripChars v.data ≠ [] then
          match pyIntOfChars? v.data with
          | some n => n :: scanFieldFlights rest
          | none => scanFieldFlights rest
        else scanFieldFlights rest
    else scanFieldFlights rest

/-- `{field["name"]: field["value"] for field in ...}`: Python dict
comprehension keeps the first position of a duplicated name but its last
value. -/
def buildFieldDict (l : List CField) : List (String × String) :=
  l.foldl
    (fun acc f =>
      if acc.any (fun p => p.1 == f.name) then
        acc.map (fun p => if p.1 == f.name then (p.1, f.value) else p)
      else acc ++ [(f.name, f.value)])
    []

/-- `extract_flight_numbers` (`helpers.py` 29-57): custom-field scan, then
fall back to `availability.item.pk` when nothing was found. -/
def extract_flight_numbers (b : Booking) : List Int :=
  let flights := scanFieldFlights (buildFieldDict b.custom_field_values)
  if flights = [] then
    match b.availability with
    | some av =>
      match av.item with
      | some it => [it.pk]
      | none => []
    | none => []
  else flights

/-- Headline flight-number extraction (`helpers.py` 287-299): first
`re.search(r'\s*-\s*(\d+)$', headline)`, else trailing digits of the stripped
headline. -/
def headlineFlightNumber? (hl : String) : Option String :=
  let l := hl.data
  let ds := trailingDigits l
  if ds ≠ [] ∧ (((l.reverse.dropWhile Char.isDigit).dropWhile isSpaceC).head? = some '-') then
    some ⟨ds⟩
  else
    let ds' := trailingDigits (pyStripChars l)
    if ds' ≠ [] then some ⟨ds'⟩ else none

/-- Custom-field flight-number extraction for `extract_flight_date_and_number`
(`helpers.py` 303-319): first digit run embedded in a field name containing
"Flight Number", else that field's all-digit stripped `display_value`. -/
def cfFlightNumber? : List CField → Option String
  | [] => none
  | f :: rest =>
    if hasSub flightNumberLit f.name.data then
      match firstDigitRun f.name.data with
      | some run => some ⟨run⟩
      | none =>
        let dv := pyStripChars f.display_value.data
        if f.display_value ≠ "" ∧ dv ≠ [] ∧ dv.all Char.isDigit then some ⟨dv⟩
        else cfFlightNumber? rest
    else cfFlightNumber? rest

/-- `extract_flight_date_and_number` (`helpers.py` 261-324): the date is the
raw `availability.start_at` when nonempty; the flight number comes from the
headline first, then from the custom fields. -/
def extract_flight_date_and_number (b : Booking) : Option String × Option String :=
  let start_at := b.startAt
  let flight_date := if start_at ≠ "" then some start_at else none
  let hl := b.headlineStr
  let fromHl := if hl ≠ "" then headlineFlightNumber? hl else none
  let flight_number :=
    match fromHl with
    | some n => some n
    | none => cfFlightNumber? b.custom_field_values
  (flight_date, flight_number)

/-- The scan loop of `find_flight_identifier` (`helpers.py` 357-387), with the
target date already parsed and formatted.  `Except.error` models the
`ValueError` raised by `int(flight_identifier)` on a non-numeric identifier. -/
def findLoop (tstr : String) (fn : String) : List Candidate → Except String (Option Int)
  | [] => .ok none
  | c :: rest =>
    match normParseDate c.FlightDate with
    | none => findLoop tstr fn rest
    | some d =>
      if formatYMD d = tstr ∧ c.numberStr = fn then
        match c.identVal with
        | some v =>
          match v.pyInt? with
          | some i => .ok (some i)
          | none => .error "ValueError"
        | none => findLoop tstr fn rest
      else findLoop tstr fn rest

/-- `find_flight_identifier` (`helpers.py` 327-389). -/
def find_flight_identifier (flight_list : List Candidate) (flight_date flight_number : String) :
    Except String (Option Int) :=
  if flight_date = "" ∨ flight_number = "" then .ok none
  else
    match normParseDate flight_date with
    | none => .ok none
    | some t => findLoop (formatYMD t) flight_number flight_list

/-! ## helpers.py — search payload and the resolver -/

/-- `re.findall(r'\(([A-Z]{3})\)', item_name)` (`helpers.py` 197-198):
non-overlapping scan for three uppercase letters in parentheses. -/
def scanCodes : List Char → List String
  | [] => []
  | '(' :: a :: b :: c :: ')' :: rest =>
    if a.isUpper && b.isUpper && c.isUpper then ⟨[a, b, c]⟩ :: scanCodes rest
    else scanCodes (a :: b :: c :: ')' :: rest)
  | _ :: rest => scanCodes rest
termination_by l => l.length

/-- `extract_airport_codes` (`helpers.py` 191-206). -/
def extract_airport_codes (item_name : String) : Option String × Option String :=
  match scanCodes item_name.data with
  | o :: d :: _ => (some o, some d)
  | [o] => (some o, none)
  | [] => (none, none)

/-- The payload built by `build_flight_search_payload` (`helpers.py` 248-256). -/
structure FPayload where
  DepartDateStart : String
  DepartDateEnd : String
  DepartOrigin : String
  DepartDestination : String
  AdultCount : Nat
  InfantCount : Nat
  IsDepartFirstClass : Bool
deriving DecidableEq

/-- `build_flight_search_payload` (`helpers.py` 209-258); `none` models the
`ValueError` raised on missing airport codes or an unparseable date. -/
def build_flight_search_payload (b : Booking) : Option FPayload :=
  match extract_airport_codes b.itemName with
  | (some o, some d) =>
    match normParseDate b.startAt with
    | some ymd =>
      some { DepartDateStart := formatYMD ymd, DepartDateEnd := formatYMD ymd,
             DepartOrigin := o, DepartDestination := d,
             AdultCount := 1, InfantCount := 0, IsDepartFirstClass := false }
    | none => none
  | _ => none

/-- The outcome of the `search_flights` collaborator as the resolver reads it
(`api_client.py` never raises: transport errors and non-200 statuses both
yield a success-false dict).  `okDict` carries the values of the three
wrapper keys tried at `helpers.py` 86 (an absent key and an empty list are
indistinguishable through the `or` chain); `okOther` is a response that is
neither list nor dict. -/
inductive SearchResp where
  | fail
  | okList (l : List Candidate)
  | okDict (flights FlightList data : List Candidate)
  | okOther
deriving DecidableEq

/-- Python `a or b` on lists (first operand when nonempty). -/
def pyOrList (a b : List Candidate) : List Candidate :=
  if a = [] then b else a

/-- The flight list extracted from a successful response
(`helpers.py` 81-92). -/
def SearchResp.flightListD : SearchResp → List Candidate
  | .fail => []
  | .okList l => l
  | .okDict f fl d => pyOrList f (pyOrList fl d)
  | .okOther => []

/-- `get_flight_identifiers_from_api` (`helpers.py` 60-121), with the search
collaborator's answer passed in.  Every exception raised inside the body
(payload construction, the matcher's `int()` coercion) is caught by the
enclosing `try` and routed to `extract_flight_numbers`, so the model is a
total function. -/
def get_flight_identifiers_from_api (b : Booking) (sr : SearchResp) : List Int :=
  match build_flight_search_payload b with
  | none => extract_flight_numbers b
  | some _ =>
    match sr with
    | .fail => extract_flight_numbers b
    | .okOther => extract_flight_numbers b
    | _ =>
      let flight_list := sr.flightListD
      if flight_list = [] then extract_flight_numbers b
      else
        match extract_flight_date_and_number b with
        | (some fd, some fn) =>
          match find_flight_identifier flight_list fd fn with
          | .ok (some fid) =>
            if fid ≠ 0 then [fid] else extract_flight_numbers b
          | .ok none => extract_flight_numbers b
          | .error _ => extract_flight_numbers b
        | _ => extract_flight_numbers b

/-- `determine_flight_directions` (`helpers.py` 124-140): depart is the
current (second) booking's flights, return is the existing (first) one's. -/
def determine_flight_directions (existing_flights current_flights : List Int)
    (_existing_booking _current_booking : Booking) : List Int × List Int :=
  (current_flights, existing_flights)

/-! ## storage.py — the pending-booking store -/

/-- `ROUND_TRIP_CLEANUP_HOURS` (`config.py` 14). -/
def ROUND_TRIP_CLEANUP_HOURS : Nat := 1

/-- `timedelta(hours=ROUND_TRIP_CLEANUP_HOURS)` in seconds; timestamps are
modelled as integer seconds. -/
def ttlSeconds : Int := 3600 * ROUND_TRIP_CLEANUP_HOURS

/-- A stored value of `round_trip_bookings` (`storage.py` 35-39). -/
structure Pending where
  booking_data : Booking
  flights : List Int
  first_received_at : Int
deriving DecidableEq

/-- The `round_trip_bookings` dict, modelled as an insertion-ordered
association list (a Python dict holds at most one value per key; the
operations below preserve key uniqueness, proved in `storeKeysNodup`). -/
abbrev Store := List (Key × Pending)

/-- `get_round_trip_booking` (`storage.py` 42-46). -/
def get_round_trip_booking (order_id : Key) (s : Store) : Option Pending :=
  (s.find? (fun kv => kv.1 == order_id)).map (·.2)

/-- `has_round_trip_booking` (`storage.py` 57-61). -/
def has_round_trip_booking (order_id : Key) (s : Store) : Bool :=
  (get_round_trip_booking order_id s).isSome

/-- `cleanup_old_bookings` (`storage.py` 15-28): drop every entry strictly
older than the TTL relative to `now`. -/
def cleanup_old_bookings (now : Int) (s : Store) : Store :=
  s.filter (fun kv => ¬ (now - kv.2.first_received_at > ttlSeconds))

/-- `store_round_trip_booking` (`storage.py` 31-39): Python dict assignment
(update in place when the key exists, else append). -/
def store_round_trip_booking (order_id : Key) (b : Booking) (fl : List Int)
    (now : Int) (s : Store) : Store :=
  if has_round_trip_booking order_id s then
    s.map (fun kv => if kv.1 == order_id then (kv.1, ⟨b, fl, now⟩) else kv)
  else s ++ [(order_id, ⟨b, fl, now⟩)]

/-- `remove_round_trip_booking` (`storage.py` 49-54): idempotent delete. -/
def remove_round_trip_booking (order_id : Key) (s : Store) : Store :=
  s.filter (fun kv => ¬ kv.1 == order_id)

/-! ## transform.py — payload assembly -/

/-- The transformed payload (`transform.py` 30-36).  The passenger remapping
is outside the modelled core (spec section 1 treats it as an external
collaborator); `source` records the booking the passenger data is drawn
from. -/
structure Payload where
  DepartFlights : List Int
  ReturnFlights : List Int
  source : Booking
  IsDepartFirstClass : Bool := false
  IsReturnFirstClass : Bool := false
deriving DecidableEq

/-- `_extract_depart_flights` (`transform.py` 45-75); its body duplicates
`extract_flight_numbers` (`helpers.py` 29-57) verbatim. -/
def extractDepartFlights (b : Booking) : List Int :=
  extract_flight_numbers b

/-- `transform_booking_data` (`transform.py` 10-42): a `None` depart list is
recomputed from the booking, a `None` return list defaults to empty. -/
def transform_booking_data (b : Booking) (depart ret : Option (List Int)) : Payload :=
  { DepartFlights := depart.getD (extractDepartFlights b),
    ReturnFlights := ret.getD [],
    source := b }

/-! ## integrations.py — webhook handler / correlation coordinator -/

/-- Store-mutating and network events, in the order the handler performs
them (used to settle ordering claims). -/
inductive Event where
  | sweep
  | emitCall (p : Payload)
  | removeKey (k : Key)
  | storeKey (k : Key)
deriving DecidableEq

def Event.isEmit : Event → Bool
  | .emitCall _ => true
  | _ => false

/-- Whether the eviction of `k` happens strictly before the first emit call
in a trace. -/
def removeBeforeEmit (tr : List Event) (k : Key) : Bool :=
  match tr.findIdx? (fun e => e == Event.removeKey k), tr.findIdx? Event.isEmit with
  | some i, some j => decide (i < j)
  | _, _ => false

/-- The round-trip handler's response, keeping the decision-relevant content
of the dicts built at `integrations.py` 100-165. -/
inductive RTOutcome where
  | storedWaiting (k : Key)
  | combined (p : Payload) (emitOk : Bool)
  | storageError (k : Key)
deriving DecidableEq

structure RTResult where
  outcome : RTOutcome
  store : Store
  trace : List Event
deriving DecidableEq

/-- `_process_round_trip_booking` (`integrations.py` 82-165).  The
`search_flights` collaborator is the oracle `search` (awaited inside
`get_flight_identifiers_from_api`); `send_to_makersuite_api` is the oracle
`emitOk` (`api_client.py` never raises and reports success as a boolean);
`datetime.now()` is `now`. -/
def processRoundTripBooking (search : Booking → SearchResp) (emitOk : Payload → Bool)
    (now : Int) (b : Booking) (s0 : Store) : RTResult :=
  let order_id := get_order_display_id b
  let s1 := cleanup_old_bookings now s0
  if has_round_trip_booking order_id s1 then
    match get_round_trip_booking order_id s1 with
    | none => ⟨.storageError order_id, s1, [.sweep]⟩
    | some info =>
      let existing_booking := info.booking_data
      let existing_flights := get_flight_identifiers_from_api existing_booking (search existing_booking)
      let current_flights := get_flight_identifiers_from_api b (search b)
      let dr := determine_flight_directions existing_flights current_flights existing_booking b
      let transformed := transform_booking_data existing_booking (some dr.1) (some dr.2)
      let ok := emitOk transformed
      let s2 := remove_round_trip_booking order_id s1
      ⟨.combined transformed ok, s2, [.sweep, .emitCall transformed, .removeKey order_id]⟩
  else
    let flights := get_flight_identifiers_from_api b (search b)
    let s2 := store_round_trip_booking order_id b flights now s1
    ⟨.storedWaiting order_id, s2, [.sweep, .storeKey order_id]⟩

/-- The webhook-level response (`integrations.py` 57-79). -/
inductive WebhookResponse where
  | noBookingData
  | roundTrip (r : RTOutcome)
  | single (p : Payload) (emitOk : Bool)
deriving DecidableEq

structure WebhookResult where
  response : WebhookResponse
  store : Store
  trace : List Event
deriving DecidableEq

/-- `_process_single_trip_booking` (`integrations.py` 168-203). -/
def processSingleTripBooking (search : Booking → SearchResp) (emitOk : Payload → Bool)
    (b : Booking) : Payload × Bool :=
  let depart_flights := get_flight_identifiers_from_api b (search b)
  let transformed := transform_booking_data b (some depart_flights) none
  (transformed, emitOk transformed)

/-- `receive_booking_webhook` (`integrations.py` 33-79): the webhook either
carries a booking or not; a round-trip booking goes to the correlation
coordinator, everything else is processed immediately as a single trip. -/
def receive_booking_webhook (search : Booking → SearchResp) (emitOk : Payload → Bool)
    (now : Int) (wh : Option Booking) (s : Store) : WebhookResult :=
  match wh with
  | none => ⟨.noBookingData, s, []⟩
  | some b =>
    if is_round_trip b then
      let r := processRoundTripBooking search emitOk now b s
      ⟨.roundTrip r.outcome, r.store, r.trace⟩
    else
      let pr := processSingleTripBooking search emitOk b
      ⟨.single pr.1 pr.2, s, [.emitCall pr.1]⟩

/-! ## Predicates used in claim statements -/

/-- A candidate satisfies the two matching predicates of the loop at
`helpers.py` 380: equal normalized calendar date and equal flight-number
string. -/
def dateNumMatch (fd fn : String) (c : Candidate) : Bool :=
  match normParseDate c.FlightDate, normParseDate fd with
  | some d, some t => formatYMD d == formatYMD t && c.numberStr == fn
  | _, _ => false

/-- A candidate that matches date and number and also carries a truthy
identifier under one of the three keys. -/
def fullMatch (fd fn : String) (c : Candidate) : Bool :=
  dateNumMatch fd fn c && c.identVal.isSome

/-- The per-candidate test of `findLoop`, phrased against the pre-formatted
target date string. -/
def loopFull (tstr fn : String) (c : Candidate) : Bool :=
  (match normParseDate c.FlightDate with
   | some d => formatYMD d == tstr
   | none => false) && c.numberStr == fn && c.identVal.isSome

/-- The key uniqueness invariant of the store (a Python dict holds at most
one value per key). -/
def keysNodup (s : Store) : Prop := (s.map Prod.fst).Nodup

/-- The combined payload produced on the combine path
(`integrations.py` 106-121): depart flights resolved from the newly arrived
booking, return flights re-resolved from the stored one, passenger source is
the stored booking. -/
def combinePayload (search : Booking → SearchResp) (b : Booking) (info : Pending) : Payload :=
  transform_booking_data info.booking_data
    (some (get_flight_identifiers_from_api b (search b)))
    (some (get_flight_identifiers_from_api info.booking_data (search info.booking_data)))

/-! ## Concrete example inputs (used by witnesses and counterexamples) -/

/-- A second-arrival round-trip booking with correlation key "BUJP". -/
def bEx : Booking := { order := some { display_id := some "BUJP" } }

/-- The booking stored on first arrival (minimal payload). -/
def bStoredEx : Booking := { }

/-- A store holding one pending entry under key "BUJP", received at time 0. -/
def stEx : Store := [(some "BUJP", ⟨bStoredEx, [5], 0⟩)]

/-- A candidate matching date `2025-10-28` and flight number `516` but
carrying no identifier field. -/
def c4Cand : Candidate :=
  { FlightDate := "2025-10-28T08:00:00-0400", FlightNumber := some (.vStr "516") }

/-- A candidate matching date `2025-10-28` and flight number `516` whose
identifier is the non-numeric string "ABC". -/
def c9Cand : Candidate :=
  { FlightDate := "2025-10-28T08:00:00-0400", FlightNumber := some (.vStr "516"),
    FlightIdentifier := some (.vStr "ABC") }

/-- A matching candidate carrying identifier 7 under the `Id` key. -/
def c8Cand : Candidate :=
  { FlightDate := "2025-10-28T08:00:00-0400", FlightNumber := some (.vStr "516"),
    Id := some (.vInt 7) }

/-- A second matching candidate carrying identifier 8. -/
def c8CandB : Candidate :=
  { FlightDate := "2025-10-28T08:00:00-0400", FlightNumber := some (.vStr "516"),
    Id := some (.vInt 8) }

/-! ## Store lemmas -/

theorem get_nil (k : Key) : get_round_trip_booking k ([] : Store) = none := rfl

theorem get_cons_of_pos (k : Key) (kv : Key × Pending) (rest : Store)
    (hk : (kv.1 == k) = true) :
    get_round_trip_booking k (kv :: rest) = some kv.2 := by
  simp only [get_round_trip_booking]
  rw [@List.find?_cons_of_pos _ (fun kv : Key × Pending => kv.1 == k) kv rest hk,
    Option.map_some']

theorem get_cons_of_neg (k : Key) (kv : Key × Pending) (rest : Store)
    (hk : ¬ (kv.1 == k) = true) :
    get_round_trip_booking k (kv :: rest) = get_round_trip_booking k rest := by
  simp only [get_round_trip_booking]
  rw [@List.find?_cons_of_neg _ (fun kv : Key × Pending => kv.1 == k) kv rest hk]

theorem get_eq_none_iff (k : Key) (s : Store) :
    get_round_trip_booking k s = none ↔ ∀ kv ∈ s, ¬ (kv.1 == k) = true := by
  simp only [get_round_trip_booking, Option.map_eq_none']
  exact List.find?_eq_none

theorem get_remove_self (k : Key) (s : Store) :
    get_round_trip_booking k (remove_round_trip_booking k s) = none := by
  rw [get_eq_none_iff]
  intro kv hkv
  have hpx := (List.mem_filter.mp hkv).2
  simpa using hpx

theorem get_cleanup_of_fresh (k : Key) (s : Store) (info : Pending) (now : Int)
    (h : get_round_trip_booking k s = some info)
    (hfresh : ¬ (now - info.first_received_at > ttlSeconds)) :
    get_round_trip_booking k (cleanup_old_bookings now s) = some info := by
  induction s with
  | nil => simp [get_nil] at h
  | cons kv rest ih =>
    by_cases hk : (kv.1 == k) = true
    · have hkv : kv.2 = info := by
        have h' := h
        rw [get_cons_of_pos k kv rest hk] at h'
        exact Option.some.inj h'
      have hp : (fun kv : Key × Pending =>
          decide ¬ (now - kv.2.first_received_at > ttlSeconds)) kv = true := by
        show decide (¬ (now - kv.2.first_received_at > ttlSeconds)) = true
        rw [hkv]
        simpa using hfresh
      simp only [cleanup_old_bookings] at *
      rw [List.filter_cons, if_pos hp, get_cons_of_pos k kv _ hk, hkv]
    · have hrest : get_round_trip_booking k rest = some info := by
        have h' := h
        rw [get_cons_of_neg k kv rest hk] at h'
        exact h'
      have hres := ih hrest
      simp only [cleanup_old_bookings] at *
      rw [List.filter_cons]
      split
      · rw [get_cons_of_neg k kv _ hk]
        exact hres
      · exact hres

theorem get_cleanup_of_none (k : Key) (s : Store) (now : Int)
    (h : get_round_trip_booking k s = none) :
    get_round_trip_booking k (cleanup_old_bookings now s) = none := by
  rw [get_eq_none_iff] at h ⊢
  intro kv hkv
  exact h kv (List.mem_filter.mp hkv).1

theorem keysNodup_filter (p : Key × Pending → Bool) (s : Store) (h : keysNodup s) :
    keysNodup (s.filter p) := by
  exact List.Nodup.sublist (List.Sublist.map Prod.fst (List.filter_sublist s)) h

theorem keysNodup_store (k : Key) (b : Booking) (fl : List Int) (now : Int)
    (s : Store) (h : keysNodup s) :
    keysNodup (store_round_trip_booking k b fl now s) := by
  unfold store_round_trip_booking
  split
  · unfold keysNodup
    have hkeys : (s.map (fun kv => if kv.1 == k then (kv.1, (⟨b, fl, now⟩ : Pending)) else kv)).map
        Prod.fst = s.map Prod.fst := by
      rw [List.map_map]
      apply List.map_congr_left
      intro kv _
      simp only [Function.comp_apply]
      split <;> rfl
    rw [hkeys]
    exact h
  · rename_i hnot
    have hget : get_round_trip_booking k s = none := by
      simp only [has_round_trip_booking] at hnot
      exact Option.not_isSome_iff_eq_none.mp hnot
    have hall := (get_eq_none_iff k s).mp hget
    unfold keysNodup
    rw [List.map_append, List.nodup_append]
    refine ⟨h, by simp, ?_⟩
    intro a ha hb
    simp only [List.map_cons, List.map_nil, List.mem_singleton] at hb
    subst hb
    rcases List.mem_map.mp ha with ⟨kv, hkv, hfst⟩
    have hne := hall kv hkv
    rw [hfst] at hne
    simp at hne

/-! ## Handler run lemmas -/

theorem processRoundTrip_combine (search : Booking → SearchResp) (emitOk : Payload → Bool)
    (now : Int) (b : Booking) (s : Store) (info : Pending)
    (hget : get_round_trip_booking (get_order_display_id b) (cleanup_old_bookings now s)
      = some info) :
    processRoundTripBooking search emitOk now b s =
      { outcome := .combined (combinePayload search b info)
          (emitOk (combinePayload search b info)),
        store := remove_round_trip_booking (get_order_display_id b)
          (cleanup_old_bookings now s),
        trace := [.sweep, .emitCall (combinePayload search b info),
                  .removeKey (get_order_display_id b)] } := by
  unfold processRoundTripBooking
  have hhas : has_round_trip_booking (get_order_display_id b)
      (cleanup_old_bookings now s) = true := by
    simp [has_round_trip_booking, hget]
  simp only [hhas, if_true, hget, combinePayload, determine_flight_directions]

theorem processRoundTrip_store (search : Booking → SearchResp) (emitOk : Payload → Bool)
    (now : Int) (b : Booking) (s : Store)
    (hget : get_round_trip_booking (get_order_display_id b) (cleanup_old_bookings now s)
      = none) :
    processRoundTripBooking search emitOk now b s =
      { outcome := .storedWaiting (get_order_display_id b),
        store := store_round_trip_booking (get_order_display_id b) b
          (get_flight_identifiers_from_api b (search b)) now (cleanup_old_bookings now s),
        trace := [.sweep, .storeKey (get_order_display_id b)] } := by
  unfold processRoundTripBooking
  have hhas : has_round_trip_booking (get_order_display_id b)
      (cleanup_old_bookings now s) = false := by
    simp [has_round_trip_booking, hget]
  simp only [hhas, Bool.false_eq_true, if_false]

/-! ## Matcher lemmas -/

theorem normParse_empty : normParseDate "" = none := rfl

theorem findLoop_cons (tstr fn : String) (c : Candidate) (rest : List Candidate) :
    findLoop tstr fn (c :: rest) =
      (match normParseDate c.FlightDate with
       | none => findLoop tstr fn rest
       | some d =>
         if formatYMD d = tstr ∧ c.numberStr = fn then
           match c.identVal with
           | some v =>
             match v.pyInt? with
             | some i => Except.ok (some i)
             | none => Except.error "ValueError"
           | none => findLoop tstr fn rest
         else findLoop tstr fn rest) := rfl

theorem findLoop_skip (tstr fn : String) (c : Candidate) (rest : List Candidate)
    (h : loopFull tstr fn c = false) :
    findLoop tstr fn (c :: rest) = findLoop tstr fn rest := by
  rw [findLoop_cons]
  unfold loopFull at h
  cases hpd : normParseDate c.FlightDate with
  | none => simp only [hpd]
  | some d =>
    simp only [hpd]
    by_cases hcond : formatYMD d = tstr ∧ c.numberStr = fn
    · rw [if_pos hcond]
      cases hiv : c.identVal with
      | none => simp only [hiv]
      | some v =>
        exfalso
        simp [hpd, hiv, hcond.1, hcond.2] at h
    · rw [if_neg hcond]

theorem loopFull_true_elim (tstr fn : String) (c : Candidate)
    (h : loopFull tstr fn c = true) :
    ∃ d v, normParseDate c.FlightDate = some d ∧ formatYMD d = tstr ∧
      c.numberStr = fn ∧ c.identVal = some v := by
  unfold loopFull at h
  cases hpd : normParseDate c.FlightDate with
  | none => rw [hpd] at h; simp at h
  | some d =>
    rw [hpd] at h
    cases hiv : c.identVal with
    | none => rw [hiv] at h; simp at h
    | some v =>
      rw [hiv] at h
      simp only [Option.isSome_some, Bool.and_true, Bool.and_eq_true, beq_iff_eq] at h
      exact ⟨d, v, rfl, h.1, h.2, rfl⟩

theorem findLoop_head_hit (tstr fn : String) (c : Candidate) (rest : List Candidate)
    (d : Nat × Nat × Nat) (v : PyVal)
    (hpd : normParseDate c.FlightDate = some d)
    (h1 : formatYMD d = tstr) (h2 : c.numberStr = fn)
    (hiv : c.identVal = some v) :
    findLoop tstr fn (c :: rest) =
      (match v.pyInt? with
       | some i => Except.ok (some i)
       | none => Except.error "ValueError") := by
  unfold findLoop
  simp only [hpd]
  rw [if_pos ⟨h1, h2⟩]
  simp only [hiv]

theorem findLoop_none_iff (tstr fn : String) (l : List Candidate) :
    findLoop tstr fn l = .ok none ↔ ∀ c ∈ l, loopFull tstr fn c = false := by
  induction l with
  | nil => simp [findLoop]
  | cons c rest ih =>
    by_cases hc : loopFull tstr fn c = false
    · rw [findLoop_skip _ _ _ _ hc, ih]
      constructor
      · intro hall c' hmem
        rcases List.mem_cons.mp hmem with rfl | hmem'
        · exact hc
        · exact hall _ hmem'
      · intro hall c' hmem
        exact hall _ (List.mem_cons_of_mem _ hmem)
    · have hct : loopFull tstr fn c = true := by
        cases hcb : loopFull tstr fn c
        · exact absurd hcb hc
        · rfl
      obtain ⟨d, v, hpd, h1, h2, hiv⟩ := loopFull_true_elim tstr fn c hct
      rw [findLoop_head_hit tstr fn c rest d v hpd h1 h2 hiv]
      constructor
      · intro hl
        exfalso
        cases hvi : v.pyInt? with
        | none => rw [hvi] at hl; exact Except.noConfusion hl
        | some i =>
          rw [hvi] at hl
          have := Except.ok.inj hl
          exact Option.noConfusion this
      · intro hall
        exact absurd (hall c (List.mem_cons_self _ _)) hc

theorem dateNumMatch_true_elim (fd fn : String) (c : Candidate) (t : Nat × Nat × Nat)
    (hfd : normParseDate fd = some t) (h : dateNumMatch fd fn c = true) :
    ∃ d, normParseDate c.FlightDate = some d ∧ formatYMD d = formatYMD t ∧
      c.numberStr = fn := by
  unfold dateNumMatch at h
  rw [hfd] at h
  cases hpd : normParseDate c.FlightDate with
  | none => rw [hpd] at h; simp at h
  | some d =>
    rw [hpd] at h
    simp only [Bool.and_eq_true, beq_iff_eq] at h
    exact ⟨d, rfl, h.1, h.2⟩

theorem loopFull_eq_fullMatch (fd fn : String) (t : Nat × Nat × Nat) (c : Candidate)
    (hfd : normParseDate fd = some t) :
    loopFull (formatYMD t) fn c = fullMatch fd fn c := by
  unfold loopFull fullMatch dateNumMatch
  rw [hfd]
  cases normParseDate c.FlightDate with
  | none => simp
  | some d => rfl

theorem find_eq_loop (l : List Candidate) (fd fn : String) (t : Nat × Nat × Nat)
    (hfd : normParseDate fd = some t) (hfn : fn ≠ "") :
    find_flight_identifier l fd fn = findLoop (formatYMD t) fn l := by
  unfold find_flight_identifier
  have hfd0 : fd ≠ "" := by
    intro h
    rw [h, normParse_empty] at hfd
    exact Option.noConfusion hfd
  rw [if_neg (not_or.mpr ⟨hfd0, hfn⟩)]
  simp only [hfd]

theorem find_none_iff (l : List Candidate) (fd fn : String) (hfn : fn ≠ "") :
    find_flight_identifier l fd fn = .ok none ↔ ∀ c ∈ l, fullMatch fd fn c = false := by
  by_cases hfd0 : fd = ""
  · subst hfd0
    constructor
    · intro _ c _
      unfold fullMatch dateNumMatch
      rw [normParse_empty]
      cases normParseDate c.FlightDate <;> simp
    · intro _
      unfold find_flight_identifier
      rw [if_pos (Or.inl rfl)]
  · cases hfd : normParseDate fd with
    | none =>
      constructor
      · intro _ c _
        unfold fullMatch dateNumMatch
        rw [hfd]
        cases normParseDate c.FlightDate <;> simp
      · intro _
        unfold find_flight_identifier
        rw [if_neg (not_or.mpr ⟨hfd0, hfn⟩)]
        simp only [hfd]
    | some t =>
      rw [find_eq_loop l fd fn t hfd hfn, findLoop_none_iff]
      constructor
      · intro h c hc
        rw [← loopFull_eq_fullMatch fd fn t c hfd]
        exact h c hc
      · intro h c hc
        rw [loopFull_eq_fullMatch fd fn t c hfd]
        exact h c hc

theorem find_first_hit (pre post : List Candidate) (c : Candidate) (fd fn : String)
    (t : Nat × Nat × Nat) (v : PyVal)
    (hfd : normParseDate fd = some t) (hfn : fn ≠ "")
    (hpre : ∀ c' ∈ pre, fullMatch fd fn c' = false)
    (hdn : dateNumMatch fd fn c = true) (hiv : c.identVal = some v) :
    find_flight_identifier (pre ++ c :: post) fd fn =
      (match v.pyInt? with
       | some i => Except.ok (some i)
       | none => Except.error "ValueError") := by
  rw [find_eq_loop _ _ _ _ hfd hfn]
  induction pre with
  | nil =>
    simp only [List.nil_append]
    obtain ⟨d, hpd, hfmt, hnum⟩ := dateNumMatch_true_elim fd fn c t hfd hdn
    exact findLoop_head_hit _ _ _ _ _ _ hpd hfmt hnum hiv
  | cons c0 pre' ih =>
    rw [List.cons_append, findLoop_skip]
    · exact ih (fun c' h' => hpre c' (List.mem_cons_of_mem _ h'))
    · rw [loopFull_eq_fullMatch fd fn t c0 hfd]
      exact hpre c0 (List.mem_cons_self _ _)

/-! ## Timezone-normalization lemmas -/

theorem replaceZ_append (a b : List Char) :
    replaceZ (a ++ b) = replaceZ a ++ replaceZ b := by
  induction a with
  | nil => rfl
  | cons c rest ih =>
    simp only [List.cons_append, replaceZ]
    split <;> simp [ih]

theorem getLast?_append_five (l : List Char) (a b c d e : Char) :
    (l ++ [a, b, c, d, e]).getLast? = some e := by
  rw [← List.head?_reverse, List.reverse_append]
  rfl

theorem getLast?_append_six (l : List Char) (a b c d e f : Char) :
    (l ++ [a, b, c, d, e, f]).getLast? = some f := by
  rw [← List.head?_reverse, List.reverse_append]
  rfl

theorem digit_ne_Z (c : Char) (h : c.isDigit = true) : c ≠ 'Z' := by
  intro he
  rw [he] at h
  exact absurd h (by decide)

theorem fixTz_hhmm (l : List Char) (sgn d1 d2 d3 d4 : Char)
    (hs : sgn = '+' ∨ sgn = '-') (h1 : d1.isDigit = true) (h2 : d2.isDigit = true)
    (h3 : d3.isDigit = true) (h4 : d4.isDigit = true) :
    fixTzChars (l ++ [sgn, d1, d2, d3, d4]) = l ++ [sgn, d1, d2, ':', d3, d4] := by
  have hrev : (l ++ [sgn, d1, d2, d3, d4]).reverse
      = d4 :: d3 :: d2 :: d1 :: sgn :: l.reverse := by
    rw [List.reverse_append]
    rfl
  unfold fixTzChars
  rw [if_neg]
  · rw [hrev]
    have hcond : ((sgn == '+' || sgn == '-') && d1.isDigit && d2.isDigit
        && d3.isDigit && d4.isDigit) = true := by
      rcases hs with rfl | rfl <;> simp [h1, h2, h3, h4]
    simp only [hcond, if_true]
    rw [show d4 :: d3 :: ':' :: d2 :: d1 :: sgn :: l.reverse
        = [d4, d3, ':', d2, d1, sgn] ++ l.reverse from rfl,
      List.reverse_append, List.reverse_reverse]
    rfl
  · rw [not_or]
    refine ⟨by simp, ?_⟩
    rw [getLast?_append_five]
    intro hcon
    exact digit_ne_Z d4 h4 (Option.some.inj hcon)

theorem fixTz_colon_fixed (l : List Char) (sgn d1 d2 d3 d4 : Char)
    (_h1 : d1.isDigit = true) (h4 : d4.isDigit = true) :
    fixTzChars (l ++ [sgn, d1, d2, ':', d3, d4]) = l ++ [sgn, d1, d2, ':', d3, d4] := by
  have hrev : (l ++ [sgn, d1, d2, ':', d3, d4]).reverse
      = d4 :: d3 :: ':' :: d2 :: d1 :: (sgn :: l.reverse) := by
    rw [List.reverse_append]
    rfl
  unfold fixTzChars
  rw [if_neg]
  · rw [hrev]
    have hcondf : ((d1 == '+' || d1 == '-') && d2.isDigit && (':' : Char).isDigit
        && d3.isDigit && d4.isDigit) = false := by
      simp
    simp only [hcondf, Bool.false_eq_true, if_false]
  · rw [not_or]
    refine ⟨by simp, ?_⟩
    rw [getLast?_append_six]
    intro hcon
    exact digit_ne_Z d4 h4 (Option.some.inj hcon)

theorem fixTz_endZ (l : List Char) : fixTzChars (l ++ ['Z']) = l ++ ['Z'] := by
  unfold fixTzChars
  rw [if_pos]
  right
  rw [← List.head?_reverse, List.reverse_append]
  rfl

theorem fixTz_plus0000 (l : List Char) :
    fixTzChars (l ++ ['+', '0', '0', ':', '0', '0'])
      = l ++ ['+', '0', '0', ':', '0', '0'] := by
  have := fixTz_colon_fixed l '+' '0' '0' '0' '0' (by decide) (by decide)
  exact this

theorem normParse_hhmm_colon (l : List Char) (sgn d1 d2 d3 d4 : Char)
    (hs : sgn = '+' ∨ sgn = '-') (h1 : d1.isDigit = true) (h2 : d2.isDigit = true)
    (h3 : d3.isDigit = true) (h4 : d4.isDigit = true) :
    normParseDate ⟨l ++ [sgn, d1, d2, d3, d4]⟩
      = normParseDate ⟨l ++ [sgn, d1, d2, ':', d3, d4]⟩ := by
  unfold normParseDate
  have e1 : (String.mk (l ++ [sgn, d1, d2, d3, d4])).data = l ++ [sgn, d1, d2, d3, d4] := rfl
  have e2 : (String.mk (l ++ [sgn, d1, d2, ':', d3, d4])).data
      = l ++ [sgn, d1, d2, ':', d3, d4] := rfl
  rw [e1, e2, fixTz_hhmm l sgn d1 d2 d3 d4 hs h1 h2 h3 h4,
    fixTz_colon_fixed l sgn d1 d2 d3 d4 h1 h4]

theorem normParse_Z_offset (l : List Char) :
    normParseDate ⟨l ++ ['Z']⟩ = normParseDate ⟨l ++ ['+', '0', '0', ':', '0', '0']⟩ := by
  unfold normParseDate
  have e1 : (String.mk (l ++ ['Z'])).data = l ++ ['Z'] := rfl
  have e2 : (String.mk (l ++ ['+', '0', '0', ':', '0', '0'])).data
      = l ++ ['+', '0', '0', ':', '0', '0'] := rfl
  rw [e1, e2, fixTz_endZ, fixTz_plus0000, replaceZ_append, replaceZ_append]
  rfl

/-! ## Claim theorems -/

/-- C1: direction assignment in the combine path is purely order-dependent:
`determine_flight_directions` ignores both bookings' content and returns
(current, existing), and on the combine path the stored (first-arrival)
booking's resolved identifiers become `ReturnFlights` while the newly arrived
(second) booking's become `DepartFlights`. -/
theorem C1_direction_order_dependent :
    (∀ (ef cf : List Int) (eb cb : Booking),
        determine_flight_directions ef cf eb cb = (cf, ef)) ∧
    (∀ (search : Booking → SearchResp) (emitOk : Payload → Bool) (now : Int)
        (b : Booking) (s : Store) (info : Pending),
        get_round_trip_booking (get_order_display_id b) s = some info →
        ¬ (now - info.first_received_at > ttlSeconds) →
        ∃ p ok, (processRoundTripBooking search emitOk now b s).outcome
            = RTOutcome.combined p ok ∧
          p.DepartFlights = get_flight_identifiers_from_api b (search b) ∧
          p.ReturnFlights = get_flight_identifiers_from_api info.booking_data
            (search info.booking_data)) := by
  constructor
  · intro ef cf eb cb
    rfl
  · intro search emitOk now b s info hget hfresh
    have hc := get_cleanup_of_fresh _ _ _ _ hget hfresh
    rw [processRoundTrip_combine search emitOk now b s info hc]
    exact ⟨_, _, rfl, rfl, rfl⟩

/-- Witness for C1 at a concrete second arrival paired with a stored entry. -/
theorem C1_witness :
    ∃ p ok, (processRoundTripBooking (fun _ => SearchResp.fail) (fun _ => true)
        10 bEx stEx).outcome = RTOutcome.combined p ok ∧
      p.DepartFlights = get_flight_identifiers_from_api bEx SearchResp.fail ∧
      p.ReturnFlights = get_flight_identifiers_from_api bStoredEx SearchResp.fail :=
  C1_direction_order_dependent.2 (fun _ => SearchResp.fail) (fun _ => true) 10 bEx stEx
    ⟨bStoredEx, [5], 0⟩ (by decide) (by decide)

/-- C2: the handler preserves key uniqueness of the store (at most one
pending entry per correlation key), and a second webhook for a key with a
live pending entry always takes the combine path — the outcome is combined,
the key is evicted, and no store event occurs, so the stored entry is never
silently overwritten by the new booking. -/
theorem C2_unique_pending_and_combine :
    (∀ (search : Booking → SearchResp) (emitOk : Payload → Bool) (now : Int)
        (b : Booking) (s : Store), keysNodup s →
        keysNodup (processRoundTripBooking search emitOk now b s).store) ∧
    (∀ (search : Booking → SearchResp) (emitOk : Payload → Bool) (now : Int)
        (b : Booking) (s : Store) (info : Pending),
        get_round_trip_booking (get_order_display_id b) s = some info →
        ¬ (now - info.first_received_at > ttlSeconds) →
        (∃ p ok, (processRoundTripBooking search emitOk now b s).outcome
            = RTOutcome.combined p ok) ∧
        get_round_trip_booking (get_order_display_id b)
          (processRoundTripBooking search emitOk now b s).store = none ∧
        ∀ k, Event.storeKey k ∉ (processRoundTripBooking search emitOk now b s).trace) := by
  constructor
  · intro search emitOk now b s h
    cases hget : get_round_trip_booking (get_order_display_id b)
        (cleanup_old_bookings now s) with
    | some info =>
      rw [processRoundTrip_combine search emitOk now b s info hget]
      exact keysNodup_filter _ _ (keysNodup_filter _ _ h)
    | none =>
      rw [processRoundTrip_store search emitOk now b s hget]
      exact keysNodup_store _ _ _ _ _ (keysNodup_filter _ _ h)
  · intro search emitOk now b s info hget hfresh
    have hc := get_cleanup_of_fresh _ _ _ _ hget hfresh
    rw [processRoundTrip_combine search emitOk now b s info hc]
    refine ⟨⟨_, _, rfl⟩, get_remove_self _ _, ?_⟩
    intro k
    simp

/-- Witness for C2 at concrete inputs (key uniqueness and the combine path). -/
theorem C2_witness :
    keysNodup (processRoundTripBooking (fun _ => SearchResp.fail) (fun _ => true)
        10 bEx stEx).store ∧
    ((∃ p ok, (processRoundTripBooking (fun _ => SearchResp.fail) (fun _ => true)
        10 bEx stEx).outcome = RTOutcome.combined p ok) ∧
      get_round_trip_booking (get_order_display_id bEx)
        (processRoundTripBooking (fun _ => SearchResp.fail) (fun _ => true)
          10 bEx stEx).store = none ∧
      ∀ k, Event.storeKey k ∉ (processRoundTripBooking (fun _ => SearchResp.fail)
        (fun _ => true) 10 bEx stEx).trace) :=
  ⟨C2_unique_pending_and_combine.1 (fun _ => SearchResp.fail) (fun _ => true) 10 bEx stEx
      (by unfold keysNodup; decide),
   C2_unique_pending_and_combine.2 (fun _ => SearchResp.fail) (fun _ => true) 10 bEx stEx
      ⟨bStoredEx, [5], 0⟩ (by decide) (by decide)⟩

/-- C5 counterexample: the claim that the pending entry is evicted before the
emit call is attempted is false on the code — at this concrete combine-path
run the emit event has index 1 and the eviction index 2 in the trace. -/
theorem C5_counterexample :
    removeBeforeEmit
      (processRoundTripBooking (fun _ => SearchResp.fail) (fun _ => true) 10 bEx stEx).trace
      (some "BUJP") = false ∧
    (processRoundTripBooking (fun _ => SearchResp.fail) (fun _ => true)
        10 bEx stEx).trace.findIdx? Event.isEmit = some 1 ∧
    (processRoundTripBooking (fun _ => SearchResp.fail) (fun _ => true)
        10 bEx stEx).trace.findIdx?
      (fun e => e == Event.removeKey (some "BUJP")) = some 2 := by
  refine ⟨?_, ?_, ?_⟩ <;> decide

/-- C5 amended: on the combine path the pending entry is evicted immediately
after the emit call returns — the emit is attempted first, eviction follows
before the handler responds (regardless of emit outcome), and the key is
absent from the resulting store. -/
theorem C5_amended_evict_after_emit :
    ∀ (search : Booking → SearchResp) (emitOk : Payload → Bool) (now : Int)
      (b : Booking) (s : Store) (info : Pending),
      get_round_trip_booking (get_order_display_id b) s = some info →
      ¬ (now - info.first_received_at > ttlSeconds) →
      (processRoundTripBooking search emitOk now b s).trace
        = [Event.sweep, Event.emitCall (combinePayload search b info),
           Event.removeKey (get_order_display_id b)] ∧
      get_round_trip_booking (get_order_display_id b)
        (processRoundTripBooking search emitOk now b s).store = none := by
  intro search emitOk now b s info hget hfresh
  have hc := get_cleanup_of_fresh _ _ _ _ hget hfresh
  rw [processRoundTrip_combine search emitOk now b s info hc]
  exact ⟨rfl, get_remove_self _ _⟩

/-- Witness for the amended C5 at a concrete combine-path run. -/
theorem C5_witness :
    (processRoundTripBooking (fun _ => SearchResp.fail) (fun _ => true) 10 bEx stEx).trace
      = [Event.sweep,
         Event.emitCall (combinePayload (fun _ => SearchResp.fail) bEx ⟨bStoredEx, [5], 0⟩),
         Event.removeKey (get_order_display_id bEx)] ∧
    get_round_trip_booking (get_order_display_id bEx)
      (processRoundTripBooking (fun _ => SearchResp.fail) (fun _ => true)
        10 bEx stEx).store = none :=
  C5_amended_evict_after_emit (fun _ => SearchResp.fail) (fun _ => true) 10 bEx stEx
    ⟨bStoredEx, [5], 0⟩ (by decide) (by decide)

/-- C6: after a completed combination the pending entry is removed from the
store regardless of the emit result: the outcome reports the emit collaborator
verdict (a failure is an error outcome), the emit is attempted exactly once
(no retry), the key is gone, and a subsequent webhook for the same key takes
the fresh store-and-wait path. -/
theorem C6_evict_regardless_of_emit :
    ∀ (search : Booking → SearchResp) (emitOk : Payload → Bool) (now : Int)
      (b : Booking) (s : Store) (info : Pending),
      get_round_trip_booking (get_order_display_id b) s = some info →
      ¬ (now - info.first_received_at > ttlSeconds) →
      get_round_trip_booking (get_order_display_id b)
        (processRoundTripBooking search emitOk now b s).store = none ∧
      (processRoundTripBooking search emitOk now b s).outcome
        = RTOutcome.combined (combinePayload search b info)
            (emitOk (combinePayload search b info)) ∧
      (processRoundTripBooking search emitOk now b s).trace.countP Event.isEmit = 1 ∧
      (∀ (now2 : Int) (b2 : Booking),
        get_order_display_id b2 = get_order_display_id b →
        (processRoundTripBooking search emitOk now2 b2
            (processRoundTripBooking search emitOk now b s).store).outcome
          = RTOutcome.storedWaiting (get_order_display_id b2)) := by
  intro search emitOk now b s info hget hfresh
  have hc := get_cleanup_of_fresh _ _ _ _ hget hfresh
  rw [processRoundTrip_combine search emitOk now b s info hc]
  refine ⟨get_remove_self _ _, rfl, ?_, ?_⟩
  · simp [List.countP_cons, Event.isEmit]
  · intro now2 b2 hk2
    have h0 : get_round_trip_booking (get_order_display_id b2)
        (remove_round_trip_booking (get_order_display_id b)
          (cleanup_old_bookings now s)) = none := by
      rw [hk2]
      exact get_remove_self _ _
    have h1 := get_cleanup_of_none _ _ now2 h0
    rw [processRoundTrip_store search emitOk now2 b2 _ h1]

/-- Witness for C6: an emit failure at a concrete combine-path run still
evicts the key and reports the failure outcome. -/
theorem C6_witness :
    get_round_trip_booking (get_order_display_id bEx)
      (processRoundTripBooking (fun _ => SearchResp.fail) (fun _ => false)
        10 bEx stEx).store = none ∧
    (processRoundTripBooking (fun _ => SearchResp.fail) (fun _ => false) 10 bEx stEx).outcome
      = RTOutcome.combined
          (combinePayload (fun _ => SearchResp.fail) bEx ⟨bStoredEx, [5], 0⟩) false ∧
    (processRoundTripBooking (fun _ => SearchResp.fail) (fun _ => false)
        10 bEx stEx).trace.countP Event.isEmit = 1 ∧
    (∀ (now2 : Int) (b2 : Booking),
      get_order_display_id b2 = get_order_display_id bEx →
      (processRoundTripBooking (fun _ => SearchResp.fail) (fun _ => false) now2 b2
          (processRoundTripBooking (fun _ => SearchResp.fail) (fun _ => false)
            10 bEx stEx).store).outcome
        = RTOutcome.storedWaiting (get_order_display_id b2)) :=
  C6_evict_regardless_of_emit (fun _ => SearchResp.fail) (fun _ => false) 10 bEx stEx
    ⟨bStoredEx, [5], 0⟩ (by decide) (by decide)

/-- C7: the sweep removes exactly the stored entries strictly older than the
configured TTL (1 hour) relative to the current time and keeps every younger
entry, and every round-trip handling cycle performs the sweep first. -/
theorem C7_sweep_exact :
    ttlSeconds = 3600 ∧
    (∀ (now : Int) (s : Store) (kv : Key × Pending),
        kv ∈ cleanup_old_bookings now s
          ↔ kv ∈ s ∧ ¬ (now - kv.2.first_received_at > ttlSeconds)) ∧
    (∀ (search : Booking → SearchResp) (emitOk : Payload → Bool) (now : Int)
        (b : Booking) (s : Store), ∃ tr,
        (processRoundTripBooking search emitOk now b s).trace = Event.sweep :: tr) := by
  refine ⟨rfl, ?_, ?_⟩
  · intro now s kv
    simp [cleanup_old_bookings, List.mem_filter]
  · intro search emitOk now b s
    cases hget : get_round_trip_booking (get_order_display_id b)
        (cleanup_old_bookings now s) with
    | some info =>
      rw [processRoundTrip_combine search emitOk now b s info hget]
      exact ⟨_, rfl⟩
    | none =>
      rw [processRoundTrip_store search emitOk now b s hget]
      exact ⟨_, rfl⟩

theorem receive_some_eq (search : Booking → SearchResp) (emitOk : Payload → Bool)
    (now : Int) (b : Booking) (s : Store) :
    receive_booking_webhook search emitOk now (some b) s =
      (if is_round_trip b then
        ⟨WebhookResponse.roundTrip (processRoundTripBooking search emitOk now b s).outcome,
         (processRoundTripBooking search emitOk now b s).store,
         (processRoundTripBooking search emitOk now b s).trace⟩
      else
        ⟨WebhookResponse.single (processSingleTripBooking search emitOk b).1
            (processSingleTripBooking search emitOk b).2,
         s, [Event.emitCall (processSingleTripBooking search emitOk b).1]⟩) := rfl

/-- C10: a booking enters the round-trip store/combine path exactly when its
payload has an order object with a non-None display id; every other booking
with booking data is processed immediately as a single-leg transform-and-emit
whose `ReturnFlights` list is empty, leaving the store untouched. -/
theorem C10_round_trip_dispatch :
    ∀ (search : Booking → SearchResp) (emitOk : Payload → Bool) (now : Int)
      (b : Booking) (s : Store),
      (is_round_trip b = true ↔ ∃ o, b.order = some o ∧ o.display_id ≠ none) ∧
      (is_round_trip b = true →
        receive_booking_webhook search emitOk now (some b) s =
          ⟨WebhookResponse.roundTrip (processRoundTripBooking search emitOk now b s).outcome,
           (processRoundTripBooking search emitOk now b s).store,
           (processRoundTripBooking search emitOk now b s).trace⟩) ∧
      (is_round_trip b = false →
        ∃ p, receive_booking_webhook search emitOk now (some b) s
            = ⟨WebhookResponse.single p (emitOk p), s, [Event.emitCall p]⟩ ∧
          p.ReturnFlights = [] ∧
          p.DepartFlights = get_flight_identifiers_from_api b (search b)) := by
  intro search emitOk now b s
  refine ⟨?_, ?_, ?_⟩
  · unfold is_round_trip
    cases ho : b.order with
    | none => simp
    | some o =>
      cases hd : o.display_id with
      | none => simp [hd]
      | some x => simp [hd]
  · intro h
    rw [receive_some_eq, if_pos h]
  · intro h
    rw [receive_some_eq, if_neg (by rw [h]; exact Bool.false_ne_true)]
    exact ⟨_, rfl, rfl, rfl⟩

/-- Witness for C10 at concrete inputs (one round-trip, one single-trip). -/
theorem C10_witness :
    receive_booking_webhook (fun _ => SearchResp.fail) (fun _ => true) 0 (some bEx) [] =
      ⟨WebhookResponse.roundTrip (processRoundTripBooking (fun _ => SearchResp.fail)
          (fun _ => true) 0 bEx []).outcome,
       (processRoundTripBooking (fun _ => SearchResp.fail) (fun _ => true) 0 bEx []).store,
       (processRoundTripBooking (fun _ => SearchResp.fail) (fun _ => true) 0 bEx []).trace⟩ ∧
    (∃ p, receive_booking_webhook (fun _ => SearchResp.fail) (fun _ => true) 0
          (some bStoredEx) stEx
        = ⟨WebhookResponse.single p true, stEx, [Event.emitCall p]⟩ ∧
      p.ReturnFlights = [] ∧
      p.DepartFlights = get_flight_identifiers_from_api bStoredEx SearchResp.fail) :=
  ⟨(C10_round_trip_dispatch (fun _ => SearchResp.fail) (fun _ => true) 0 bEx []).2.1
      (by decide),
   (C10_round_trip_dispatch (fun _ => SearchResp.fail) (fun _ => true) 0 bStoredEx stEx).2.2
      (by decide)⟩

/-- C3: the flight resolver is a total function on the modelled domain
(never raises, always yields a list) and follows the fallback chain: a failed
search, a non-list and non-dict response, an empty flight list, a missing
target date or flight number, a match miss, or an exception inside the
matcher all route to `extract_flight_numbers`; and when the custom-field scan
finds nothing, `extract_flight_numbers` falls back to the availability item
pk. -/
theorem C3_resolver_fallback_chain :
    ∀ (b : Booking) (sr : SearchResp),
      (sr = SearchResp.fail →
        get_flight_identifiers_from_api b sr = extract_flight_numbers b) ∧
      (sr = SearchResp.okOther →
        get_flight_identifiers_from_api b sr = extract_flight_numbers b) ∧
      (sr.flightListD = [] →
        get_flight_identifiers_from_api b sr = extract_flight_numbers b) ∧
      ((extract_flight_date_and_number b).1 = none ∨
          (extract_flight_date_and_number b).2 = none →
        get_flight_identifiers_from_api b sr = extract_flight_numbers b) ∧
      (∀ fd fn, extract_flight_date_and_number b = (some fd, some fn) →
        find_flight_identifier sr.flightListD fd fn = Except.ok none →
        get_flight_identifiers_from_api b sr = extract_flight_numbers b) ∧
      (∀ fd fn e, extract_flight_date_and_number b = (some fd, some fn) →
        find_flight_identifier sr.flightListD fd fn = Except.error e →
        get_flight_identifiers_from_api b sr = extract_flight_numbers b) ∧
      (scanFieldFlights (buildFieldDict b.custom_field_values) = [] →
        ∀ av it, b.availability = some av → av.item = some it →
          extract_flight_numbers b = [it.pk]) := by
  intro b sr
  refine ⟨?_, ?_, ?_, ?_, ?_, ?_, ?_⟩
  · intro h
    subst h
    unfold get_flight_identifiers_from_api
    cases build_flight_search_payload b <;> rfl
  · intro h
    subst h
    unfold get_flight_identifiers_from_api
    cases build_flight_search_payload b <;> rfl
  · intro h
    unfold get_flight_identifiers_from_api
    cases build_flight_search_payload b with
    | none => rfl
    | some pl =>
      cases sr with
      | fail => rfl
      | okOther => rfl
      | okList l => simp [h]
      | okDict f fl d => simp [h]
  · intro h
    unfold get_flight_identifiers_from_api
    cases hbp : build_flight_search_payload b with
    | none => rfl
    | some pl =>
      cases hx : extract_flight_date_and_number b with
      | mk o1 o2 =>
        rw [hx] at h
        cases sr with
        | fail => rfl
        | okOther => rfl
        | okList l =>
          by_cases hl : SearchResp.flightListD (SearchResp.okList l) = []
          · simp [hl]
          · rcases h with h | h
            · have ho1 : o1 = none := h
              subst ho1
              simp [hl, hx]
            · have ho2 : o2 = none := h
              subst ho2
              cases o1 with
              | none => simp [hl, hx]
              | some fd => simp [hl, hx]
        | okDict f fl d =>
          by_cases hl : SearchResp.flightListD (SearchResp.okDict f fl d) = []
          · simp [hl]
          · rcases h with h | h
            · have ho1 : o1 = none := h
              subst ho1
              simp [hl, hx]
            · have ho2 : o2 = none := h
              subst ho2
              cases o1 with
              | none => simp [hl, hx]
              | some fd => simp [hl, hx]
  · intro fd fn hx hfind
    unfold get_flight_identifiers_from_api
    cases hbp : build_flight_search_payload b with
    | none => rfl
    | some pl =>
      cases sr with
      | fail => rfl
      | okOther => rfl
      | okList l =>
        by_cases hl : SearchResp.flightListD (SearchResp.okList l) = []
        · simp [hl]
        · simp [hl, hx, hfind]
      | okDict f fl d =>
        by_cases hl : SearchResp.flightListD (SearchResp.okDict f fl d) = []
        · simp [hl]
        · simp [hl, hx, hfind]
  · intro fd fn e hx hfind
    unfold get_flight_identifiers_from_api
    cases hbp : build_flight_search_payload b with
    | none => rfl
    | some pl =>
      cases sr with
      | fail => rfl
      | okOther => rfl
      | okList l =>
        by_cases hl : SearchResp.flightListD (SearchResp.okList l) = []
        · simp [hl]
        · simp [hl, hx, hfind]
      | okDict f fl d =>
        by_cases hl : SearchResp.flightListD (SearchResp.okDict f fl d) = []
        · simp [hl]
        · simp [hl, hx, hfind]
  · intro hscan av it hav hit
    unfold extract_flight_numbers
    rw [hscan, if_pos rfl, hav]
    simp [hit]

/-- Witness for C3: a failed search at a concrete booking falls back to the
custom-field extraction, and an empty custom-field scan falls back to the
availability item pk. -/
theorem C3_witness :
    get_flight_identifiers_from_api
        { availability := some { item := some { pk := 777 } } } SearchResp.fail
      = extract_flight_numbers { availability := some { item := some { pk := 777 } } } ∧
    extract_flight_numbers { availability := some { item := some { pk := 777 } } }
      = [(777 : Int)] :=
  ⟨(C3_resolver_fallback_chain { availability := some { item := some { pk := 777 } } }
      SearchResp.fail).1 rfl,
   (C3_resolver_fallback_chain { availability := some { item := some { pk := 777 } } }
      SearchResp.fail).2.2.2.2.2.2 (by decide) { item := some { pk := 777 } }
      { pk := 777 } rfl rfl⟩

/-- C4 counterexample: the claim's "exactly when" fails — this candidate has
both an equal normalized calendar date (its offset is written `-0400`, the
target's `-04:00`) and an equal flight-number string, yet match returns none
because the candidate carries no identifier field and scanning finds nothing
else. -/
theorem C4_counterexample :
    find_flight_identifier [c4Cand] "2025-10-28T08:00:00-04:00" "516" = Except.ok none ∧
    dateNumMatch "2025-10-28T08:00:00-04:00" "516" c4Cand = true := by
  exact ⟨rfl, by decide⟩

/-- C4 amended: match returns none exactly when no candidate has equal
normalized calendar date, equal flight-number string, and a truthy identifier
field; timezone offsets written `±HHMM`, `±HH:MM`, or as a trailing `Z` are
normalized so that formatting-only differences never change the date
comparison outcome. -/
theorem C4_amended_none_iff :
    (∀ (l : List Candidate) (fd fn : String), fn ≠ "" →
        (find_flight_identifier l fd fn = Except.ok none ↔
          ∀ c ∈ l, fullMatch fd fn c = false)) ∧
    (∀ (l : List Char) (sgn d1 d2 d3 d4 : Char),
        (sgn = '+' ∨ sgn = '-') → d1.isDigit = true → d2.isDigit = true →
        d3.isDigit = true → d4.isDigit = true →
        normParseDate ⟨l ++ [sgn, d1, d2, d3, d4]⟩
          = normParseDate ⟨l ++ [sgn, d1, d2, ':', d3, d4]⟩) ∧
    (∀ l : List Char,
        normParseDate ⟨l ++ ['Z']⟩
          = normParseDate ⟨l ++ ['+', '0', '0', ':', '0', '0']⟩) :=
  ⟨find_none_iff, normParse_hhmm_colon, normParse_Z_offset⟩

/-- Witness for the amended C4 at concrete inputs, including the `-0400`
versus `-04:00` normalization. -/
theorem C4_witness :
    (find_flight_identifier [c4Cand] "2025-10-28T08:00:00-04:00" "516" = Except.ok none ↔
      ∀ c ∈ [c4Cand], fullMatch "2025-10-28T08:00:00-04:00" "516" c = false) ∧
    normParseDate ⟨"2025-10-28T08:00:00".data ++ ['-', '0', '4', '0', '0']⟩
      = normParseDate ⟨"2025-10-28T08:00:00".data ++ ['-', '0', '4', ':', '0', '0']⟩ :=
  ⟨C4_amended_none_iff.1 [c4Cand] "2025-10-28T08:00:00-04:00" "516" (by decide),
   C4_amended_none_iff.2.1 "2025-10-28T08:00:00".data '-' '0' '4' '0' '0'
     (Or.inr rfl) (by decide) (by decide) (by decide) (by decide)⟩

/-- C8: the first candidate in list order that satisfies the date and
flight-number predicates and carries a truthy identifier wins (later matches
are ignored), and any candidate failing the full test — date mismatch,
number mismatch, unparseable date-time, or missing identifier despite a
date/number match — is skipped with scanning continuing past it. -/
theorem C8_first_match_wins :
    (∀ (pre post : List Candidate) (c : Candidate) (fd fn : String)
        (t : Nat × Nat × Nat) (v : PyVal) (i : Int),
        normParseDate fd = some t → fn ≠ "" →
        (∀ c' ∈ pre, fullMatch fd fn c' = false) →
        dateNumMatch fd fn c = true → c.identVal = some v → v.pyInt? = some i →
        find_flight_identifier (pre ++ c :: post) fd fn = Except.ok (some i)) ∧
    (∀ (c : Candidate) (rest : List Candidate) (fd fn : String),
        fullMatch fd fn c = false →
        find_flight_identifier (c :: rest) fd fn = find_flight_identifier rest fd fn) := by
  constructor
  · intro pre post c fd fn t v i hfd hfn hpre hdn hiv hint
    rw [find_first_hit pre post c fd fn t v hfd hfn hpre hdn hiv]
    simp only [hint]
  · intro c rest fd fn h
    by_cases h0 : fd = "" ∨ fn = ""
    · unfold find_flight_identifier
      rw [if_pos h0, if_pos h0]
    · have hfn : fn ≠ "" := fun hh => h0 (Or.inr hh)
      cases hfd : normParseDate fd with
      | none =>
        unfold find_flight_identifier
        rw [if_neg h0, if_neg h0]
        simp only [hfd]
      | some t =>
        rw [find_eq_loop _ _ _ _ hfd hfn, find_eq_loop _ _ _ _ hfd hfn, findLoop_skip]
        rw [loopFull_eq_fullMatch fd fn t c hfd]
        exact h

/-- Witness for C8: the first full match (identifier 7) wins over a later one
(identifier 8), and an identifier-less matching candidate is skipped. -/
theorem C8_witness :
    find_flight_identifier ([c4Cand] ++ c8Cand :: [c8CandB])
        "2025-10-28T08:00:00-04:00" "516" = Except.ok (some 7) ∧
    find_flight_identifier (c4Cand :: [c8Cand]) "2025-10-28T08:00:00-04:00" "516"
      = find_flight_identifier [c8Cand] "2025-10-28T08:00:00-04:00" "516" :=
  ⟨C8_first_match_wins.1 [c4Cand] [c8CandB] c8Cand "2025-10-28T08:00:00-04:00" "516"
      (2025, 10, 28) (PyVal.vInt 7) 7 (by decide) (by decide) (by decide) (by decide)
      (by decide) (by decide),
   C8_first_match_wins.2 c4Cand [c8Cand] "2025-10-28T08:00:00-04:00" "516" (by decide)⟩

/-- C9 counterexample: a date/number-matching candidate whose identifier is
the non-numeric string "ABC" makes the matcher raise (the `int()` coercion
fails), so match is not total over the spec's numeric-or-string identifier
domain. -/
theorem C9_counterexample :
    find_flight_identifier [c9Cand] "2025-10-28T08:00:00-04:00" "516"
      = Except.error "ValueError" ∧
    dateNumMatch "2025-10-28T08:00:00-04:00" "516" c9Cand = true ∧
    c9Cand.identVal = some (PyVal.vStr "ABC") :=
  ⟨rfl, by decide, by decide⟩

/-- C9 amended: when the first candidate satisfying the matching predicates
carries a truthy identifier, match returns its Python `int()` coercion when
the identifier is an integer or a numeric string, and raises `ValueError`
(modelled as an error value) when the coercion fails. -/
theorem C9_amended_identifier_coercion :
    ∀ (pre post : List Candidate) (c : Candidate) (fd fn : String)
      (t : Nat × Nat × Nat) (v : PyVal),
      normParseDate fd = some t → fn ≠ "" →
      (∀ c' ∈ pre, fullMatch fd fn c' = false) →
      dateNumMatch fd fn c = true → c.identVal = some v →
      (∀ i, v.pyInt? = some i →
        find_flight_identifier (pre ++ c :: post) fd fn = Except.ok (some i)) ∧
      (v.pyInt? = none →
        find_flight_identifier (pre ++ c :: post) fd fn = Except.error "ValueError") := by
  intro pre post c fd fn t v hfd hfn hpre hdn hiv
  constructor
  · intro i hint
    rw [find_first_hit pre post c fd fn t v hfd hfn hpre hdn hiv]
    simp only [hint]
  · intro hint
    rw [find_first_hit pre post c fd fn t v hfd hfn hpre hdn hiv]
    simp only [hint]

/-- Witness for the amended C9: an integer identifier is returned, a
non-numeric string identifier raises. -/
theorem C9_witness :
    find_flight_identifier ([] ++ c8Cand :: []) "2025-10-28T08:00:00-04:00" "516"
      = Except.ok (some 7) ∧
    find_flight_identifier ([] ++ c9Cand :: []) "2025-10-28T08:00:00-04:00" "516"
      = Except.error "ValueError" :=
  ⟨(C9_amended_identifier_coercion [] [] c8Cand "2025-10-28T08:00:00-04:00" "516"
      (2025, 10, 28) (PyVal.vInt 7) (by decide) (by decide) (by decide) (by decide)
      (by decide)).1 7 rfl,
   (C9_amended_identifier_coercion [] [] c9Cand "2025-10-28T08:00:00-04:00" "516"
      (2025, 10, 28) (PyVal.vStr "ABC") (by decide) (by decide) (by decide) (by decide)
      (by decide)).2 (by decide)⟩

end RoundTrip
